import Mathlib

/-!
# Verification of the quiz-agent orchestration core

Shallow embedding of the control/submission logic of the repository
(`agent.py`, `tools/send_request.py`, `tools/process_csv.py`) and proofs
about the frozen claims.  Python floats are modelled as rationals (`ℚ`),
Python dictionaries as association lists, and Python exceptions as
`Option`/explicit error values.
-/

attribute [local semireducible] Rat.add Rat.mul Rat.sub Rat.inv Rat.ofScientific

namespace QuizAgent

/-- A Python value, as far as the embedded code inspects one.  JSON data,
tool arguments and dictionary fields are all values of this type. -/
inductive PyVal where
  | pyNone
  | pyBool (b : Bool)
  | pyInt (n : ℤ)
  | pyFloat (q : ℚ)
  | pyStr (s : String)
  | pyList (l : List PyVal)
  | pyDict (entries : List (String × PyVal))

/-- Python truthiness (`if x:`) for the modelled values. -/
def pyTruthy : PyVal → Bool
  | .pyNone => false
  | .pyBool b => b
  | .pyInt n => n ≠ 0
  | .pyFloat q => q ≠ 0
  | .pyStr s => !s.isEmpty
  | .pyList l => !l.isEmpty
  | .pyDict e => !e.isEmpty

/-- `d.get(k)` on a Python dict: first (and, by construction, only) binding. -/
def dictGet (d : List (String × PyVal)) (k : String) : Option PyVal :=
  (d.find? (fun p => p.1 == k)).map Prod.snd

/-- `d.get(k, default)` on a Python dict. -/
def dictGetD (d : List (String × PyVal)) (k : String) (dflt : PyVal) : PyVal :=
  (dictGet d k).getD dflt

/-- `d[k] = v` on a Python dict: replace the binding in place if the key
is present (keys are unique in a dict), else append it. -/
def dictSet : List (String × PyVal) → String → PyVal → List (String × PyVal)
  | [], k, v => [(k, v)]
  | p :: tl, k, v => if p.1 == k then (k, v) :: tl else p :: dictSet tl k v

/-- `k in d` on a Python dict. -/
def hasKey (d : List (String × PyVal)) (k : String) : Bool :=
  d.any (fun p => p.1 == k)

/-- Whitespace strip over a character list (Python `str.strip()`, as done
by `int`/`float` on string arguments). -/
def trimChars (cs : List Char) : List Char :=
  ((cs.dropWhile Char.isWhitespace).reverse.dropWhile Char.isWhitespace).reverse

/-- Python `str.lower()` (ASCII suffices for the inspected inputs). -/
def toLowerStr (s : String) : String := String.mk (s.toList.map Char.toLower)

/-- Digit run to a natural number. -/
def digitsToNat (ds : List Char) : ℕ :=
  ds.foldl (fun a c => a * 10 + (c.toNat - 48)) 0

/-- Optional exponent part of a Python float literal (`e`/`E`, sign, digits);
`some 0` when the remainder is empty, `none` when it is not a valid tail. -/
def parseExpPart (cs : List Char) : Option ℤ :=
  match cs with
  | [] => some 0
  | 'e' :: rest => parseSignedDigits rest
  | 'E' :: rest => parseSignedDigits rest
  | _ => none
where
  parseSignedDigits (cs : List Char) : Option ℤ :=
    match cs with
    | '+' :: ds => if ds ≠ [] ∧ ds.all Char.isDigit then some (digitsToNat ds) else none
    | '-' :: ds => if ds ≠ [] ∧ ds.all Char.isDigit then some (-(digitsToNat ds : ℤ)) else none
    | ds => if ds ≠ [] ∧ ds.all Char.isDigit then some (digitsToNat ds) else none

/-- Body of a Python float literal after the sign: digits, an optional
point with further digits, and an optional exponent. -/
def parseFloatCore (cs : List Char) : Option ℚ :=
  let ip := cs.takeWhile Char.isDigit
  let r1 := List.drop ip.length cs
  match r1 with
  | '.' :: r2 =>
    let fp := r2.takeWhile Char.isDigit
    let r3 := List.drop fp.length r2
    if ip.isEmpty && fp.isEmpty then none
    else (parseExpPart r3).map (fun e =>
      ((digitsToNat ip : ℚ) + (digitsToNat fp : ℚ) / (10 : ℚ) ^ fp.length) * (10 : ℚ) ^ e)
  | _ =>
    if ip.isEmpty then none
    else (parseExpPart r1).map (fun e => (digitsToNat ip : ℚ) * (10 : ℚ) ^ e)

/-- Python `float(s)` on a string: strip whitespace, optional sign, decimal
literal.  (`inf`, `nan` and underscore separators are outside the model; the
repository never produces them.) -/
def parseFloat? (s : String) : Option ℚ :=
  match trimChars s.toList with
  | '+' :: cs => parseFloatCore cs
  | '-' :: cs => (parseFloatCore cs).map Neg.neg
  | cs => parseFloatCore cs

/-- Python `int(s)` on a string: strip whitespace, optional sign, digits. -/
def parseInt? (s : String) : Option ℤ :=
  match trimChars s.toList with
  | '+' :: ds => if ds ≠ [] ∧ ds.all Char.isDigit then some (digitsToNat ds : ℤ) else none
  | '-' :: ds => if ds ≠ [] ∧ ds.all Char.isDigit then some (-(digitsToNat ds : ℤ)) else none
  | ds => if ds ≠ [] ∧ ds.all Char.isDigit then some (digitsToNat ds : ℤ) else none

/-- Python `int(x)`: `none` models a raised `ValueError`/`TypeError`.
Floats truncate toward zero. -/
def pyIntOf : PyVal → Option ℤ
  | .pyInt n => some n
  | .pyBool b => some (if b then 1 else 0)
  | .pyFloat q => some (if 0 ≤ q then ⌊q⌋ else -⌊-q⌋)
  | .pyStr s => parseInt? s
  | _ => none

/-- Python `float(x)`: `none` models a raised `ValueError`/`TypeError`. -/
def pyFloatOf : PyVal → Option ℚ
  | .pyFloat q => some q
  | .pyInt n => some (n : ℚ)
  | .pyBool b => some (if b then 1 else 0)
  | .pyStr s => parseFloat? s
  | _ => none

/-- Python `str(x)`.  Only the string case is inspected by the embedded
code (operation-name lookup); renderings of the other cases are stand-ins
that never collide with a recognized operation name. -/
def pyStrOf : PyVal → String
  | .pyStr s => s
  | .pyInt n => toString n
  | .pyBool b => if b then "True" else "False"
  | .pyFloat q => toString q
  | .pyNone => "None"
  | .pyList _ => "<list>"
  | .pyDict _ => "<dict>"

/-- Python list indexing `l[i]` with negative-index wraparound;
`none` models a raised `IndexError`. -/
def pyIndex (l : List ℚ) (i : ℤ) : Option ℚ :=
  if 0 ≤ i then l.get? i.toNat
  else
    let j := (l.length : ℤ) + i
    if 0 ≤ j then l.get? j.toNat else none

/-! ## TabularExecutor: `tools/process_csv.py` -/

/-- One filter predicate from `_apply_filters` in `tools/process_csv.py`:
`col = int(f.get("column", 0))`, `op = f.get("op", "==")`,
`val = float(f.get("value", 0))`, `x = float(row_values[col])`, then the
comparison dispatch.  Any exception inside the `try` (non-dict filter,
unconvertible field, out-of-range index) makes the row fail, as does an
unrecognized operator or a non-string `op`. -/
def filterPass (row_values : List ℚ) (f : PyVal) : Bool :=
  match f with
  | .pyDict entries =>
    match pyIntOf (dictGetD entries "column" (.pyInt 0)) with
    | none => false
    | some col =>
      let op := dictGetD entries "op" (.pyStr "==")
      match pyFloatOf (dictGetD entries "value" (.pyInt 0)) with
      | none => false
      | some val =>
        match pyIndex row_values col with
        | none => false
        | some x =>
          match op with
          | .pyStr s =>
            if s = ">" then decide (x > val)
            else if s = ">=" then decide (x ≥ val)
            else if s = "<" then decide (x < val)
            else if s = "<=" then decide (x ≤ val)
            else if s = "==" then decide (x = val)
            else if s = "!=" then decide (x ≠ val)
            else false
          | _ => false
  | _ => false

/-- `_apply_filters(row_values, filters)`: the row passes iff it passes
every filter. -/
def _apply_filters (row_values : List ℚ) (filters : List PyVal) : Bool :=
  filters.all (filterPass row_values)

/-- The per-row body of the loop in `process_csv`: skip empty rows, skip
rows shorter than `col_idx + 1`, coerce the whole row to floats (any
failure skips the row), apply the filters, then take the value at
`col_idx` (negative indices wrap; a residual out-of-range index skips the
row). -/
def processRow (colIdx : ℤ) (filters : List PyVal) (row : List String) :
    Option ℚ :=
  if row.isEmpty then none
  else if (row.length : ℤ) ≤ colIdx then none
  else
    match row.mapM parseFloat? with
    | none => none
    | some row_vals =>
      if _apply_filters row_vals filters then pyIndex row_vals colIdx
      else none

/-- The list `values` accumulated by `process_csv`; `rows_matched` is its
length, since both grow in the same step of the loop. -/
def valuesOf (colIdx : ℤ) (filters : List PyVal) (rows : List (List String)) :
    List ℚ :=
  rows.filterMap (processRow colIdx filters)

/-- The aggregation step of `process_csv`: `result = 0` when no values,
otherwise dispatch on the (lowercased) operation name, defaulting to sum. -/
def aggregate (op_name : String) (values : List ℚ) : ℚ :=
  match values with
  | [] => 0
  | v :: vs =>
    if op_name = "sum" ∨ op_name = "total" then (v :: vs).sum
    else if op_name = "count" then ((v :: vs).length : ℚ)
    else if op_name = "max" then vs.foldl max v
    else if op_name = "min" then vs.foldl min v
    else if op_name = "avg" ∨ op_name = "average" ∨ op_name = "mean" then
      (v :: vs).sum / ((v :: vs).length : ℚ)
    else (v :: vs).sum

/-- The result dictionary of `process_csv`. -/
structure CsvResult where
  result : ℚ
  rows_matched : ℕ
  operation : String
  column : ℤ
  filters : List PyVal

/-- The `filters` normalization in `process_csv`:
`operations.get("filters", [])`, replaced by `[]` when not a list. -/
def filtersOf (operations : List (String × PyVal)) : List PyVal :=
  match dictGetD operations "filters" (.pyList []) with
  | .pyList l => l
  | _ => []

/-- The row-processing core of `process_csv` from `tools/process_csv.py`:
the function at the granularity of the row list produced by `csv.reader`
(each row a list of cell strings).  `none` models the uncaught
`int(operations.get("column", 0))` raise.  `process_csv_text` below adds
the `StringIO`/`csv.reader` stage and is the tool's full string
interface. -/
def process_csv (rows : List (List String))
    (operations : List (String × PyVal)) : Option CsvResult :=
  let op_name := toLowerStr (pyStrOf (dictGetD operations "operation" (.pyStr "sum")))
  match pyIntOf (dictGetD operations "column" (.pyInt 0)) with
  | none => none
  | some col_idx =>
    let filters := filtersOf operations
    let values := valuesOf col_idx filters rows
    some { result := aggregate op_name values
           rows_matched := values.length
           operation := op_name
           column := col_idx
           filters := filters }


/-- The csv module's default field size limit. -/
def field_size_limit : ℕ := 131072

/-- The states of the csv reader's parser (CPython `_csv.c`, default
dialect: delimiter `,`, quotechar `"`, doublequote on, no escape
character, `skipinitialspace` off, non-strict). -/
inductive CsvState where
  | startRecord
  | startField
  | inField
  | inQuotedField
  | quoteInQuotedField
  | eatCrnl
deriving DecidableEq

/-- The reader's in-progress record: the current field's characters, the
saved fields, and the parser state. -/
structure CsvAcc where
  field : List Char
  fields : List String
  state : CsvState

/-- `parse_add_char`: appending to a field that has already reached the
field size limit raises `Error("field larger than field limit")`. -/
def csvAddChar (acc : CsvAcc) (c : Char) : Option CsvAcc :=
  if acc.field.length = field_size_limit then none
  else some { acc with field := acc.field ++ [c] }

/-- `parse_save_field`: close the current field. -/
def csvSaveField (acc : CsvAcc) : CsvAcc :=
  { acc with field := [], fields := acc.fields ++ [String.mk acc.field] }

/-- One character entering an empty field position (the shared
`START_FIELD` logic, also reached by fallthrough from `START_RECORD`). -/
def csvStartFieldChar (acc : CsvAcc) (c : Char) : Option CsvAcc :=
  if c = '\n' ∨ c = '\r' then
    some { csvSaveField acc with state := .eatCrnl }
  else if c = '"' then some { acc with state := .inQuotedField }
  else if c = ',' then some (csvSaveField acc)
  else (csvAddChar acc c).map (fun a => { a with state := .inField })

/-- `parse_process_char` on an ordinary character of a line. -/
def csvChar (acc : CsvAcc) (c : Char) : Option CsvAcc :=
  match acc.state with
  | .startRecord =>
    if c = '\n' ∨ c = '\r' then some { acc with state := .eatCrnl }
    else csvStartFieldChar { acc with state := .startField } c
  | .startField => csvStartFieldChar acc c
  | .inField =>
    if c = '\n' ∨ c = '\r' then
      some { csvSaveField acc with state := .eatCrnl }
    else if c = ',' then
      some { csvSaveField acc with state := .startField }
    else csvAddChar acc c
  | .inQuotedField =>
    if c = '"' then some { acc with state := .quoteInQuotedField }
    else csvAddChar acc c
  | .quoteInQuotedField =>
    if c = '"' then
      (csvAddChar acc c).map (fun a => { a with state := .inQuotedField })
    else if c = ',' then
      some { csvSaveField acc with state := .startField }
    else if c = '\n' ∨ c = '\r' then
      some { csvSaveField acc with state := .eatCrnl }
    else  -- non-strict: text after a closing quote is taken literally
      (csvAddChar acc c).map (fun a => { a with state := .inField })
  | .eatCrnl =>
    if c = '\n' ∨ c = '\r' then some acc
    else none  -- Error: new-line character seen in unquoted field

/-- `parse_process_char` on the end-of-line sentinel fired after each
line's characters. -/
def csvEol (acc : CsvAcc) : Option CsvAcc :=
  match acc.state with
  | .startRecord => some acc
  | .startField => some { csvSaveField acc with state := .startRecord }
  | .inField => some { csvSaveField acc with state := .startRecord }
  | .inQuotedField => some acc  -- the quoted field continues on the next line
  | .quoteInQuotedField => some { csvSaveField acc with state := .startRecord }
  | .eatCrnl => some { acc with state := .startRecord }

/-- Process one line of input (its characters, then the end-of-line
sentinel). -/
def csvLine (acc : CsvAcc) (line : List Char) : Option CsvAcc :=
  (line.foldlM csvChar acc).bind csvEol

/-- The reader's record loop: a record is emitted when a line ends in
`START_RECORD`; a quoted field keeps pulling lines; at end of input a
pending quoted field is saved non-strictly and its record emitted. -/
def csvRecords : List (List Char) → CsvAcc → Option (List (List String))
  | [], acc =>
    if acc.field ≠ [] ∨ acc.state = CsvState.inQuotedField then
      some [(csvSaveField acc).fields]
    else some []
  | l :: ls, acc =>
    match csvLine acc l with
    | none => none
    | some a =>
      if a.state = CsvState.startRecord then
        (csvRecords ls ⟨[], [], .startRecord⟩).map (fun rs => a.fields :: rs)
      else csvRecords ls a

/-- Split text into the lines a `StringIO` yields: chunks ending with
`\n` (kept) plus a final unterminated chunk. -/
def splitLinesAux (cur : List Char) : List Char → List (List Char)
  | [] => if cur.isEmpty then [] else [cur]
  | c :: cs =>
    if c = '\n' then (cur ++ ['\n']) :: splitLinesAux [] cs
    else splitLinesAux (cur ++ [c]) cs

/-- The lines of a csv text. -/
def splitLines (cs : List Char) : List (List Char) := splitLinesAux [] cs

/-- `csv.reader(StringIO(csv_text))` run to completion: `some` the list
of records, `none` when the iteration raises (`Error` on a field over the
size limit, or on a carriage return not followed by a line end outside a
quoted field).  CPython 3.11 semantics: NUL characters are ordinary data
and an unterminated quoted field at end of input is saved non-strictly. -/
def csvParse (csv_text : String) : Option (List (List String)) :=
  csvRecords (splitLines csv_text.toList) ⟨[], [], .startRecord⟩

/-- `process_csv(csv_text, operations)` at its full string interface: the
descriptor is normalized first — `int(operations.get("column", 0))` is
the one raise before the loop — and the row iteration then drives
`csv.reader`, whose own raises surface from the loop (the reader is lazy,
but since the function has no side effects a mid-iteration raise is
observationally a whole-call raise, modelled by parsing all rows up
front).  The per-row and aggregation logic is `process_csv` below on the
parsed rows. -/
def process_csv_text (csv_text : String)
    (operations : List (String × PyVal)) : Option CsvResult :=
  match pyIntOf (dictGetD operations "column" (.pyInt 0)) with
  | none => none
  | some _ =>
    match csvParse csv_text with
    | none => none
    | some rows => process_csv rows operations

/-! ## Concrete inputs for the tabular claims -/

/-- The row list of the C7 scenario. -/
def rows7 : List (List String) := [["1", "100"], ["2", "40"], ["x", "bad"]]

/-- The descriptor of the C7 scenario. -/
def ops7 : List (String × PyVal) :=
  [("operation", .pyStr "sum"), ("column", .pyInt 1),
   ("filters", .pyList [.pyDict
      [("column", .pyInt 0), ("op", .pyStr ">"), ("value", .pyInt 1)]])]

/-- Rows for the C8 witness scenario. -/
def rows8 : List (List String) := [["5"]]

/-- Descriptor for the C8 witness scenario: `average` over column 0 with a
filter no row satisfies. -/
def ops8 : List (String × PyVal) :=
  [("operation", .pyStr "average"), ("column", .pyInt 0),
   ("filters", .pyList [.pyDict
      [("column", .pyInt 0), ("op", .pyStr ">"), ("value", .pyInt 10)]])]

/-- The result `process_csv` produces on the C8 witness scenario. -/
def res8 : CsvResult :=
  { result := 0
    rows_matched := 0
    operation := "average"
    column := 0
    filters := [.pyDict
      [("column", .pyInt 0), ("op", .pyStr ">"), ("value", .pyInt 10)]] }

/-! ## ArtifactGate: the forced-tool logic of `agent_node` in `agent.py` -/

/-- One turn of the recent window, as the gate sees it: `content` is
`str(msg.content)`, scanned by the download-marker regexes, and `rendered`
is the turn's contribution to `str(recent_messages)`, the string the
substring checks `"transcribe_audio" in msg_str` / `"ocr_image_tool" in
msg_str` run over (it includes tool-call names and metadata, not just the
content). -/
structure Msg where
  content : String
  rendered : String

/-- The class `[\w-]` of the marker regexes (ASCII scope). -/
def isWordChar (c : Char) : Bool := c.isAlphanum || c = '_' || c = '-'

/-- First extension of the alternation that is a prefix of `cs`, in the
order the regex lists them. -/
def tryExts (exts : List String) (cs : List Char) : Option String :=
  match exts with
  | [] => none
  | e :: rest => if e.toList.isPrefixOf cs then some e else tryExts rest cs

/-- Match `[\w-]+\.(ext1|...)` at the start of `cs` and return the text of
group 1.  The greedy `[\w-]+` can only stop at the end of the maximal word
run — any shorter match is followed by a word character, never by `.` —
so no backtracking inside the run is needed. -/
def matchFilenameAt (exts : List String) (cs : List Char) : Option String :=
  let run := cs.takeWhile isWordChar
  if run.isEmpty then none
  else
    match List.drop run.length cs with
    | '.' :: after =>
      match tryExts exts after with
      | some e => some (String.mk run ++ "." ++ e)
      | none => none
    | _ => none

/-- The lazy gap `.*?` after the literal: try the filename group at each
position, consuming gap characters one at a time; `.` does not cross a
newline, so an unmatched newline ends the attempt for this occurrence of
the literal. -/
def findFilenameLazy (exts : List String) : List Char → Option String
  | [] => none
  | c :: cs =>
    match matchFilenameAt exts (c :: cs) with
    | some f => some f
    | none => if c = '\n' then none else findFilenameLazy exts cs

/-- The literal prefix of both marker regexes. -/
def litChars : List Char := "Downloaded file to:".toList

/-- `re.search` for `Downloaded file to:.*?([\w-]+\.(...))` over the
content: try each occurrence of the literal left to right and return the
first group-1 text found.  (`group(1).strip()` in the source is the
identity here: group 1 never contains whitespace.) -/
def searchMarker (exts : List String) : List Char → Option String
  | [] => none
  | c :: cs =>
    match
      (if litChars.isPrefixOf (c :: cs) then
        findFilenameLazy exts (List.drop litChars.length (c :: cs))
      else none) with
    | some f => some f
    | none => searchMarker exts cs

/-- The audio extensions, in regex order. -/
def audioExts : List String := ["opus", "mp3", "wav", "ogg"]

/-- The image extensions, in regex order. -/
def imageExts : List String := ["png", "jpg", "jpeg", "bmp"]

/-- The audio download-marker search over one turn's content. -/
def audioMatch (s : String) : Option String := searchMarker audioExts s.toList

/-- The image download-marker search over one turn's content. -/
def imageMatch (s : String) : Option String := searchMarker imageExts s.toList

/-- The scan loop of `agent_node`: for each turn of the window, a marker
match overwrites the previously recorded filename of its class, so the
most recent marker of each class wins.  Returns
`(downloaded_audio, downloaded_image)`. -/
def scanWindow (window : List Msg) : Option String × Option String :=
  window.foldl
    (fun acc msg =>
      let a := audioMatch msg.content
      let i := imageMatch msg.content
      ((match a with | some f => some f | none => acc.1),
       (match i with | some f => some f | none => acc.2)))
    (none, none)

/-- Substring containment over character lists (Python `in`). -/
def containsSubList (needle : List Char) : List Char → Bool
  | [] => needle.isEmpty
  | c :: cs => needle.isPrefixOf (c :: cs) || containsSubList needle cs

/-- Substring containment on strings (Python `needle in hay`). -/
def containsSub (hay needle : String) : Bool :=
  containsSubList needle.toList hay.toList

/-- `str(recent_messages)`: bracketed, comma-separated concatenation of
the turns' renderings. -/
def msgStr (window : List Msg) : String :=
  "[" ++ String.intercalate ", " (window.map Msg.rendered) ++ "]"

/-- `os.path.basename`: the part after the last `/`. -/
def basename (s : String) : String :=
  String.mk ((s.toList.foldl (fun acc c => if c = '/' then [] else acc ++ [c]) []))

/-- The image-path cleaning step before forcing OCR: strip the directory
prefix when the path mentions `LLMFiles`. -/
def cleanImagePath (s : String) : String :=
  if containsSub s "LLMFiles" then basename s else s

/-- A forced tool call synthesized by the gate. -/
inductive ForcedCall where
  | transcribeAudio (file_path : String)
  | ocrImage (image_path : String)
deriving DecidableEq

/-- The forced-tool decision of `agent_node` over the last-15-turn window:
detect the most recent audio/image download markers, check the window's
rendering for the processing tool names, force transcription first, then
OCR, else nothing (the model is invoked). -/
def nextForcedCall (window : List Msg) : Option ForcedCall :=
  let ms := msgStr window
  let transcribed_audio := containsSub ms "transcribe_audio"
  let ocr_run := containsSub ms "ocr_image_tool"
  let scanned := scanWindow window
  match scanned.1 with
  | some f =>
    if transcribed_audio then
      match scanned.2 with
      | some g => if ocr_run then none else some (.ocrImage (cleanImagePath g))
      | none => none
    else some (.transcribeAudio f)
  | none =>
    match scanned.2 with
    | some g => if ocr_run then none else some (.ocrImage (cleanImagePath g))
    | none => none

/-! ## SessionTimer: the timeout escape of `agent_node` in `agent.py` -/

/-- Modelled from the spec: the process-wide registry `url_time` lives in
`shared_store.py`, which is not under `src/`; per §3 of the design it is a
plain mapping from task-identifier to start timestamp, and the retry
offset lives in the process environment as either the sentinel string
`"0"` or `str(t)` of a timestamp — here `none` is the sentinel and
`some t` a set offset (a float's `str` is never the string `"0"`). -/
def offsetSentinel : Option ℚ := none

/-- The timeout check of `agent_node` (`agent.py` lines 116-131): nothing
is checked when the current task-identifier has no recorded start time;
otherwise the escape fires when `cur_time - prev_time >= 180` or the
offset is set (not the sentinel `"0"`) and `cur_time - float(offset) > 90`. -/
def timeoutCheck (prev_time : Option ℚ) (cur_time : ℚ) (offset : Option ℚ) :
    Bool :=
  match prev_time with
  | none => false
  | some p =>
    decide (cur_time - p ≥ 180) ||
      (match offset with
       | none => false
       | some o => decide (cur_time - o > 90))

/-- The decision a turn of `agent_node` takes. -/
inductive AgentDecision where
  | timeoutEscape
  | forcedCall (c : ForcedCall)
  | invokeModel
deriving DecidableEq

/-- One decision turn of `agent_node`: the timeout escape is evaluated
first (before trimming and the artifact gate); otherwise the gate may
force a call; otherwise the model is invoked on the trimmed history. -/
def agentDecide (prev_time : Option ℚ) (cur_time : ℚ) (offset : Option ℚ)
    (window : List Msg) : AgentDecision :=
  if timeoutCheck prev_time cur_time offset then .timeoutEscape
  else
    match nextForcedCall window with
    | some c => .forcedCall c
    | none => .invokeModel

/-- Window for the C5 witness: an unprocessed audio marker and an
unprocessed image marker. -/
def w5 : List Msg :=
  [⟨"Downloaded file to: a.opus", "ToolMessage download a.opus"⟩,
   ⟨"Downloaded file to: b.png", "ToolMessage download b.png"⟩]

/-- Window for the C6 counterexample: a download marker for `x.opus`
together with a transcription tool-result for a different file — its
rendering carries the tool name `transcribe_audio` but never mentions
`x.opus`. -/
def cw6 : List Msg :=
  [⟨"Downloaded file to: x.opus", "ToolMessage download x.opus"⟩,
   ⟨"hello there", "ToolMessage transcribe_audio hello there"⟩]

/-- Window for the C6 witness: a lone download marker for `x.opus`. -/
def w6 : List Msg := [⟨"Downloaded file to: x.opus", "ToolMessage download x.opus"⟩]

/-- A turn carrying a download marker for `b.opus` (C6 witness,
most-recent-wins part). -/
def mB : Msg := ⟨"Downloaded file to: b.opus", "ToolMessage download b.opus"⟩

/-! ## SubmissionCoordinator: `post_request` in `tools/send_request.py` -/

/-- The numeric value of a Python scalar for `==` purposes (booleans are
numeric: `True == 1`). -/
def pyNum? : PyVal → Option ℚ
  | .pyBool b => some (if b then 1 else 0)
  | .pyInt n => some (n : ℚ)
  | .pyFloat q => some q
  | _ => none

/-- Python `==` on hashable dictionary-key values: strings compare as
strings, `None` to `None`, and numbers (including booleans) by numeric
value; a string never equals a non-string. -/
def pyKeyEq (a b : PyVal) : Bool :=
  match a, b with
  | .pyStr x, .pyStr y => x == y
  | .pyNone, .pyNone => true
  | _, _ =>
    match pyNum? a, pyNum? b with
    | some x, some y => x == y
    | _, _ => false

/-- Whether a Python value can be a dictionary key: lists and dicts are
unhashable and raise `TypeError` when used as one. -/
def pyHashable : PyVal → Bool
  | .pyList _ => false
  | .pyDict _ => false
  | _ => true

/-- Modelled from the spec: the process-wide mutable state around
`post_request`.  `url_time` and `BASE64_STORE` live in `shared_store.py`,
which is not under `src/`; per §3/§6 of the design they are plain
process-wide dictionaries, `url_time` mapping a task-identifier to the
(float) timestamp of its first encounter and `BASE64_STORE` mapping an
indirection key to stored text.  `url_time` keys are whatever hashable
value a response's `url` field carried — normally strings, compared with
Python `==`.  The current task-identifier and retry offset live in the
process environment (`os.environ`); the offset only ever holds the
sentinel `"0"` (here `none`) or `str(t)` of a float timestamp (here
`some t` — a float's `str` is never the string `"0"`). -/
structure Store where
  urlTime : List (PyVal × ℚ)
  cache : List (Option String × ℕ)
  envUrl : Option String
  envOffset : Option ℚ
  base64Store : List (String × String)

/-- The wall-clock values `time.time()` would return at the call sites
inside `post_request`, in source order. -/
structure Clock where
  tDelayNow : ℚ
  tDelayDefault : ℚ
  tTouch : ℚ
  tCheckNow : ℚ
  tPrevDefault : ℚ
  tOffsetDefault : ℚ

/-- What the external `requests.post` interaction produced: a 2xx JSON
body, a 2xx non-JSON body, an HTTP 4xx/5xx error (with the parsed body
when the error response was JSON), or a raised request exception. -/
inductive HttpResp where
  | okJson (data : PyVal)
  | okText (text : String)
  | httpError (status : ℤ) (bodyJson : Option PyVal) (text : String)
  | exn (msg : String)

/-- The dictionary `post_request` returns when the response carries no
follow-up url: the END signal for the agent. -/
def endSignal (data : PyVal) : PyVal :=
  .pyDict [("agent_signal", .pyStr "END"), ("response", data)]

/-- `url_time.get(k)`: `none` when the key is absent. -/
def urlTimeGet (ut : List (PyVal × ℚ)) (k : PyVal) : Option ℚ :=
  (ut.find? (fun p => pyKeyEq p.1 k)).map Prod.snd

/-- `url_time.get(k, d)` (the default is evaluated eagerly by Python, so
callers pass the already-ticked clock value). -/
def urlTimeGetD (ut : List (PyVal × ℚ)) (k : PyVal) (d : ℚ) : ℚ :=
  (urlTimeGet ut k).getD d

/-- `cache[k]` on the `defaultdict(int)` of submission attempts. -/
def cacheGet (c : List (Option String × ℕ)) (k : Option String) : ℕ :=
  ((c.find? (fun p => p.1 == k)).map Prod.snd).getD 0

/-- `cache[k] += 1` on the `defaultdict(int)`: increment in place if the
key is present, else create the entry with value 1. -/
def cacheBump : List (Option String × ℕ) → Option String → List (Option String × ℕ)
  | [], k => [(k, 1)]
  | p :: tl, k => if p.1 == k then (k, p.2 + 1) :: tl else p :: cacheBump tl k

/-- `retry_limit = 4` in `tools/send_request.py`. -/
def retry_limit : ℕ := 4

/-- The BASE64 indirection step at the top of `post_request`: an answer of
the form `BASE64_KEY:<key>` is replaced by the stored text; a missing key
raises `KeyError` out of the tool (`none`). -/
def resolveAnswer (payload : List (String × PyVal))
    (b64 : List (String × String)) : Option (List (String × PyVal)) :=
  match dictGet payload "answer" with
  | some (.pyStr s) =>
    if "BASE64_KEY:".toList.isPrefixOf s.toList then
      match b64.find? (fun p => p.1 == String.mk (s.toList.drop 11)) with
      | some kv => some (dictSet payload "answer" (.pyStr kv.2))
      | none => none
    else some payload
  | _ => some payload

/-- The secret-injection step: when the configured secret is truthy and
the payload has no truthy `secret` field, set it. -/
def injectSecret (secret : Option String) (payload : List (String × PyVal)) :
    List (String × PyVal) :=
  match secret with
  | some sec =>
    if sec ≠ "" ∧ pyTruthy (dictGetD payload "secret" .pyNone) = false then
      dictSet payload "secret" (.pyStr sec)
    else payload
  | none => payload

/-- Scheme characters after the leading letter (`urllib.parse`). -/
def isSchemeChar (c : Char) : Bool :=
  c.isAlphanum || c = '+' || c = '-' || c = '.'

/-- Split a URL at its scheme the way `urllib.parse.urlparse` does: the
part before the first `:` is the scheme when it is nonempty, starts with
a letter and consists of scheme characters; otherwise there is no scheme. -/
def urlSplitScheme (url : String) : String × String :=
  let cs := url.toList
  let pre := cs.takeWhile (fun c => c ≠ ':')
  match List.drop pre.length cs with
  | ':' :: after =>
    match pre with
    | [] => ("", url)
    | c0 :: _ =>
      if c0.isAlpha ∧ pre.all isSchemeChar then
        (toLowerStr (String.mk pre), String.mk after)
      else ("", url)
  | _ => ("", url)

/-- `urlparse(url).scheme`. -/
def urlScheme (url : String) : String := (urlSplitScheme url).1

/-- `urlparse(url).netloc`: the run after `//` up to `/`, `?` or `#`. -/
def urlNetloc (url : String) : String :=
  let rest := (urlSplitScheme url).2
  match rest.toList with
  | '/' :: '/' :: cs =>
    String.mk (cs.takeWhile (fun c => c ≠ '/' ∧ c ≠ '?' ∧ c ≠ '#'))
  | _ => ""

/-- The placeholder blocklist of `post_request`. -/
def blocked_domains : List String :=
  ["example.com", "YOUR_", "quiz.example.com", "api.example.com"]

/-- The URL validation prefix of `post_request`: `some err` is the
structured error returned before any network interaction, `none` means
the URL is accepted.  Well-formedness (scheme and netloc present) is
checked first, then the substring blocklist. -/
def validateUrl (url : String) : Option PyVal :=
  if urlScheme url = "" ∨ urlNetloc url = "" then
    some (.pyDict [("error", .pyStr
      ("Invalid URL: " ++ url ++ ". Must be a complete URL with https://"))])
  else if blocked_domains.any (fun b => containsSub url b) then
    some (.pyDict [("error", .pyStr
      ("Refusing to send to placeholder URL: " ++ url ++
        ". Use the actual URL from the page."))])
  else none

/-- The common tail of the success path: `forward_url = data.get("url", "")`,
`os.environ["url"] = forward_url` (a non-string raises a `TypeError`,
surfaced as the generic error dictionary by the enclosing handler), and
the offset is reset to the sentinel when the forwarding target equals the
announced follow-up value (`==` — a string forward target never equals a
non-string follow-up). -/
def finishStep (store : Store) (data2 : List (String × PyVal)) (nu : PyVal) :
    PyVal × Store :=
  match dictGetD data2 "url" (.pyStr "") with
  | .pyStr fu =>
    let store1 := { store with envUrl := some fu }
    let store2 :=
      if pyKeyEq (.pyStr fu) nu then { store1 with envOffset := none }
      else store1
    (.pyDict data2, store2)
  | _ =>
    (.pyDict [("error", .pyStr "str expected for environ value")], store)

/-- A current task-identifier as the Python value written into the
response dictionary (`data["url"] = cur_url`; `os.getenv` yields `None`
when unset). -/
def pyOfOptStr : Option String → PyVal
  | some c => .pyStr c
  | none => .pyNone

/-- The incorrect-answer decision of `post_request` (`send_request.py`
lines 180-191): advance — forward the follow-up url untouched — when the
attempt counter has reached the retry ceiling, or the delay is at least
180, or the follow-up's recorded time is more than 90 seconds old
(`prev != "0"` compares the float `prev` with the string `"0"`, which is
always true in Python, so only the 90-second part of that disjunct is
live); otherwise retry — record the offset, rewrite the forwarding target
back to the current identifier and attach the retry instruction. -/
def retryAdvance (curUrl : Option String) (store1 : Store)
    (data : List (String × PyVal)) (ck : Clock) (nu : PyVal) (delay : ℚ) :
    PyVal × Store :=
  if cacheGet store1.cache curUrl ≥ retry_limit ∨ delay ≥ 180 ∨
      ck.tCheckNow - urlTimeGetD store1.urlTime nu ck.tPrevDefault > 90 then
    finishStep store1 [("url", dictGetD data "url" (.pyStr ""))] nu
  else
    finishStep
      { store1 with
          envOffset := some (urlTimeGetD store1.urlTime nu ck.tOffsetDefault) }
      (dictSet (dictSet data "url" (pyOfOptStr curUrl)) "message"
        (.pyStr "Retry Again!"))
      nu

/-- The part of `post_request` handling a parsed JSON dictionary response
(`send_request.py` lines 159-198): compute the delay, terminate when the
follow-up url is falsy, register the follow-up's start time, and on an
incorrect answer decide advance vs retry.  A truthy hashable follow-up —
string or not — goes through the touch and retry/advance machinery (the
retry branch rewrites the forwarding target to the string current
identifier, so e.g. `{"url": 5}` below the ceiling returns a normal retry
dictionary); an unhashable follow-up (list or dict) raises `TypeError`
at `next_url not in url_time`, surfaced as the generic error
dictionary. -/
def handleData (curUrl : Option String) (store : Store)
    (data : List (String × PyVal)) (ck : Clock) : PyVal × Store :=
  let delay :=
    ck.tDelayNow - urlTimeGetD store.urlTime (pyOfOptStr curUrl) ck.tDelayDefault
  let nextUrl := dictGetD data "url" .pyNone
  if pyTruthy nextUrl = false then
    (endSignal (.pyDict data), store)
  else if pyHashable nextUrl = false then
    (.pyDict [("error", .pyStr "unhashable type")], store)
  else
    let store1 :=
      if (urlTimeGet store.urlTime nextUrl).isSome then store
      else { store with urlTime := store.urlTime ++ [(nextUrl, ck.tTouch)] }
    if pyTruthy (dictGetD data "correct" .pyNone) = false then
      retryAdvance curUrl store1 data ck nextUrl delay
    else finishStep store1 data nextUrl

/-- The body of the `try` block of `post_request` after validation:
increment the attempt counter for the current task-identifier, perform
the POST (its outcome is the `resp` parameter), and dispatch — HTTP
errors and request exceptions become structured error dictionaries, a
non-JSON body becomes the `non_json_response` error, a non-dictionary
JSON body raises `AttributeError` on `.get` and is caught by the generic
handler, and a dictionary body goes to `handleData`. -/
def handleResp (store : Store) (resp : HttpResp) (ck : Clock) :
    PyVal × Store :=
  let curUrl := store.envUrl
  let store1 := { store with cache := cacheBump store.cache curUrl }
  match resp with
  | .exn msg => (.pyDict [("error", .pyStr msg)], store1)
  | .httpError status bodyJson text =>
    (.pyDict [("error", match bodyJson with | some j => j | none => .pyStr text),
              ("status_code", .pyInt status)], store1)
  | .okText _text =>
    (.pyDict [("error", .pyStr "non_json_response"), ("text", .pyStr _text)], store1)
  | .okJson (.pyDict d) => handleData curUrl store1 d ck
  | .okJson _ =>
    (.pyDict [("error", .pyStr "object has no attribute get")], store1)

/-- `post_request(url, payload, headers)` from `tools/send_request.py`.
The network interaction is abstracted by `resp` and the wall clock by
`ck`; `secret` is the `SECRET` configuration value.  The overall `none`
models the one exception raised outside the `try` block: a dangling
`BASE64_KEY` indirection (`KeyError`). -/
def post_request (url : String) (payload : List (String × PyVal))
    (secret : Option String) (store : Store) (resp : HttpResp) (ck : Clock) :
    Option (PyVal × Store) :=
  match resolveAnswer payload store.base64Store with
  | none => none
  | some payload1 =>
    let _payload2 := injectSecret secret payload1
    match validateUrl url with
    | some err => some (err, store)
    | none => some (handleResp store resp ck)

/-- Store for the C2 witness: `u1` already has 4 recorded attempts. -/
def storeW2 : Store := ⟨[(.pyStr "u1", 100)], [(some "u1", 4)], some "u1", none, []⟩

/-- Clock for the submission witnesses. -/
def ckW : Clock := ⟨200, 201, 202, 203, 204, 205⟩

/-- Server response for the C2 witness: incorrect answer with follow-up
`u2`. -/
def dW2 : List (String × PyVal) :=
  [("url", .pyStr "u2"), ("correct", .pyBool false)]

/-- Store for the C3/C4 witnesses. -/
def storeW3 : Store := ⟨[], [], some "u1", none, []⟩

/-- The structured error `post_request` returns for the blocked
placeholder URL of the C4 witness. -/
def errW4 : PyVal :=
  .pyDict [("error", .pyStr
    ("Refusing to send to placeholder URL: https://example.com/x. " ++
      "Use the actual URL from the page."))]

/-- C7 (counterexample): on the rows `[["1","100"],["2","40"],["x","bad"]]`
with descriptor `operation = sum, column = 1, filters = [column 0 > 1]`,
the executor does NOT yield `result = 0` and `rows_matched = 0` as the
claim states. -/
theorem claim_C7_counterexample :
    (process_csv rows7 ops7).map (fun r => (r.result, r.rows_matched)) ≠
      some ((0 : ℚ), (0 : ℕ)) := by
  decide

/-- C7 (amended): on those rows the executor yields `result = 40` and
`rows_matched = 1`: the row `["1","100"]` fails the filter (1 > 1 is
false), the row `["2","40"]` passes it (2 > 1) and contributes 40, and the
row `["x","bad"]` is skipped as non-numeric. -/
theorem claim_C7 :
    (process_csv rows7 ops7).map (fun r => (r.result, r.rows_matched)) =
      some ((40 : ℚ), (1 : ℕ)) := by
  decide

/-- C8: whenever `process_csv` returns with zero matched rows, the result
is 0 — for every operation name, including `average`; the guard on the
empty value list means no division is ever attempted. -/
theorem claim_C8 (rows : List (List String)) (ops : List (String × PyVal))
    (r : CsvResult) (h : process_csv rows ops = some r)
    (h0 : r.rows_matched = 0) : r.result = 0 := by
  unfold process_csv at h
  rcases hc : pyIntOf (dictGetD ops "column" (.pyInt 0)) with _ | c
  · rw [hc] at h
    exact absurd h (by simp)
  · rw [hc] at h
    simp only [Option.some.injEq] at h
    subst h
    simp only at h0
    have hv : valuesOf c (filtersOf ops) rows = [] :=
      List.length_eq_zero.mp h0
    simp only [hv]
    rfl

/-- Closed witness for C8: the `average` descriptor `ops8` with no matching
row returns `result = 0`. -/
theorem claim_C8_witness :
    process_csv rows8 ops8 = some res8 ∧ res8.rows_matched = 0 ∧
      res8.result = 0 :=
  ⟨rfl, rfl, claim_C8 rows8 ops8 res8 rfl rfl⟩

/-- C9 (counterexample): the executor is not total at its csv_text
interface: a `column` field that does not convert to an integer makes
`int(operations.get("column", 0))` raise, and a csv text the reader
cannot parse (here a carriage return not followed by a line end) makes
the row iteration raise — both modelled by `none`. -/
theorem claim_C9_counterexample :
    process_csv_text "1" [("column", PyVal.pyStr "x")] = none
    ∧ process_csv_text "a\rb" [] = none := ⟨rfl, rfl⟩

/-- C9 (amended): for every csv_text string whose reader iteration does
not raise and every operations dictionary whose `column` field
int-converts (in particular an integer or absent) — with a non-list
`filters` field treated as empty, an unrecognized operation name treated
as sum, non-numeric cells, out-of-range filter columns and unrecognized
filter operators each only excluding the affected row — the executor
returns the five-field result and `rows_matched` equals the number of
values aggregated. -/
theorem claim_C9 (csv_text : String) (ops : List (String × PyVal))
    (rows : List (List String)) (c : ℤ)
    (hparse : csvParse csv_text = some rows)
    (hc : pyIntOf (dictGetD ops "column" (.pyInt 0)) = some c) :
    ∃ r : CsvResult, process_csv_text csv_text ops = some r
      ∧ r.rows_matched = (valuesOf c (filtersOf ops) rows).length
      ∧ r.result = aggregate r.operation (valuesOf c (filtersOf ops) rows)
      ∧ r.operation = toLowerStr (pyStrOf (dictGetD ops "operation" (.pyStr "sum")))
      ∧ r.column = c
      ∧ r.filters = filtersOf ops := by
  unfold process_csv_text process_csv
  rw [hc, hparse]
  exact ⟨_, rfl, rfl, rfl, rfl, rfl, rfl⟩

/-- Closed witness for C9: the text `"1"` parses to one row and an empty
operations dictionary (column defaults to 0) aggregates it. -/
theorem claim_C9_witness :
    csvParse "1" = some [["1"]]
    ∧ pyIntOf (dictGetD ([] : List (String × PyVal)) "column" (.pyInt 0)) =
        some 0
    ∧ ∃ r : CsvResult, process_csv_text "1" [] = some r
      ∧ r.rows_matched = (valuesOf 0 (filtersOf []) [["1"]]).length
      ∧ r.result = aggregate r.operation (valuesOf 0 (filtersOf []) [["1"]])
      ∧ r.operation = toLowerStr (pyStrOf (dictGetD [] "operation" (.pyStr "sum")))
      ∧ r.column = 0
      ∧ r.filters = filtersOf [] :=
  ⟨rfl, rfl, claim_C9 "1" [] [["1"]] 0 rfl rfl⟩

/-- A nonempty string is not `isEmpty`. -/
theorem isEmpty_false {s : String} (h : s ≠ "") : s.isEmpty = false := by
  cases he : s.isEmpty
  · rfl
  · exact absurd ((String.isEmpty_iff s).mp he) h

/-- A binding found by `dictGet` is what `dictGetD` returns for any
default. -/
theorem dictGetD_of_get {d : List (String × PyVal)} {k : String} {v : PyVal}
    (h : dictGet d k = some v) (dflt : PyVal) : dictGetD d k dflt = v := by
  simp [dictGetD, h]

/-- Conversely, when `dictGetD` returns something other than its default,
the binding is present. -/
theorem dictGet_of_getD_ne {d : List (String × PyVal)} {k : String}
    {v dflt : PyVal} (h : dictGetD d k dflt = v) (hne : v ≠ dflt) :
    dictGet d k = some v := by
  unfold dictGetD at h
  cases hg : dictGet d k with
  | none => rw [hg] at h; exact absurd h.symm hne
  | some w =>
    rw [hg] at h
    simp only [Option.getD_some] at h
    rw [h]

/-- Bumping the attempt counter increments the looked-up value. -/
theorem cacheGet_cacheBump (c : List (Option String × ℕ)) (k : Option String) :
    cacheGet (cacheBump c k) k = cacheGet c k + 1 := by
  induction c with
  | nil => simp [cacheBump, cacheGet, List.find?]
  | cons p tl ih =>
    by_cases hp : (p.1 == k) = true
    · simp [cacheBump, cacheGet, List.find?, hp]
    · simpa [cacheBump, cacheGet, List.find?, hp] using ih

/-- Setting a key makes it the looked-up binding. -/
theorem dictGet_dictSet_self (l : List (String × PyVal)) (k : String)
    (v : PyVal) : dictGet (dictSet l k v) k = some v := by
  induction l with
  | nil => simp [dictGet, dictSet, List.find?]
  | cons p tl ih =>
    by_cases hp : (p.1 == k) = true
    · simp [dictSet, dictGet, List.find?, hp]
    · simpa [dictSet, dictGet, List.find?, hp] using ih

/-- A rejected URL always yields the one-key `error` dictionary. -/
theorem validateUrl_some {url : String} {err : PyVal}
    (h : validateUrl url = some err) :
    ∃ msg, err = .pyDict [("error", .pyStr msg)] := by
  unfold validateUrl at h
  split_ifs at h <;> exact ⟨_, (Option.some.inj h).symm⟩

/-- A dictionary whose first key is not `agent_signal` is never the END
signal. -/
theorem ne_endSignal_of_head {k : String} (hk : k ≠ "agent_signal")
    (x : PyVal) (tl : List (String × PyVal)) (v : PyVal) :
    PyVal.pyDict ((k, x) :: tl) ≠ endSignal v := by
  intro h
  simp only [endSignal, PyVal.pyDict.injEq, List.cons.injEq, Prod.mk.injEq] at h
  exact hk h.1.1

/-- C1: for a task-identifier with a recorded start time, the timeout
check of `agent_node` is true exactly when the elapsed time is at least
180 seconds, or the retry offset is set (not the sentinel `"0"`) and
`now - offset > 90`; when neither disjunct holds the check is false and
the decision turn does not enter the timeout escape. -/
theorem claim_C1 (p cur_time : ℚ) (offset : Option ℚ) (window : List Msg) :
    (timeoutCheck (some p) cur_time offset = true ↔
      (cur_time - p ≥ 180 ∨ ∃ o, offset = some o ∧ cur_time - o > 90))
    ∧ (timeoutCheck (some p) cur_time offset = false →
        agentDecide (some p) cur_time offset window ≠ .timeoutEscape) := by
  constructor
  · cases offset <;> simp [timeoutCheck]
  · intro h
    unfold agentDecide
    rw [h]
    cases hn : nextForcedCall window <;> simp

/-- Closed witness for C1: elapsed 10 < 180 with a cleared offset is not
timed out, and the decision turn proceeds past the escape. -/
theorem claim_C1_witness :
    timeoutCheck (some 0) 10 offsetSentinel = false
    ∧ agentDecide (some 0) 10 offsetSentinel [] ≠ .timeoutEscape :=
  ⟨by decide, (claim_C1 0 10 offsetSentinel []).2 (by decide)⟩

/-- C5: when both an audio and an image download marker are detected in
the window and neither processing tool name appears in its rendering, the
forced call is the transcription of the audio artifact, never the image
analysis. -/
theorem claim_C5 (window : List Msg) (fa fi : String)
    (ha : (scanWindow window).1 = some fa)
    (_hi : (scanWindow window).2 = some fi)
    (hta : containsSub (msgStr window) "transcribe_audio" = false)
    (_hoc : containsSub (msgStr window) "ocr_image_tool" = false) :
    nextForcedCall window = some (.transcribeAudio fa) ∧
      ∀ g, nextForcedCall window ≠ some (.ocrImage g) := by
  have h1 : nextForcedCall window = some (.transcribeAudio fa) := by
    simp only [nextForcedCall, ha, hta]
    simp
  exact ⟨h1, fun g hg => by rw [h1] at hg; simp at hg⟩

/-- Closed witness for C5: a window with a pending `a.opus` and a pending
`b.png` forces the transcription of `a.opus`. -/
theorem claim_C5_witness :
    (scanWindow w5).1 = some "a.opus" ∧ (scanWindow w5).2 = some "b.png"
    ∧ containsSub (msgStr w5) "transcribe_audio" = false
    ∧ containsSub (msgStr w5) "ocr_image_tool" = false
    ∧ (nextForcedCall w5 = some (.transcribeAudio "a.opus") ∧
        ∀ g, nextForcedCall w5 ≠ some (.ocrImage g)) :=
  ⟨by decide, by decide, by decide, by decide,
   claim_C5 w5 "a.opus" "b.png" (by decide) (by decide) (by decide) (by decide)⟩

/-- C6 (counterexample): the pending check is not per-file.  In this
window the download marker for `x.opus` is present and no turn both
carries the transcription tool name and mentions `x.opus` — so by the
claim `x.opus` is pending and must be forced — yet the gate returns no
forced call, because the substring `transcribe_audio` (from a
transcription of a different file) appears somewhere in the rendered
window. -/
theorem claim_C6_counterexample :
    (scanWindow cw6).1 = some "x.opus"
    ∧ cw6.all (fun m => !(containsSub m.rendered "transcribe_audio" &&
        containsSub m.rendered "x.opus")) = true
    ∧ nextForcedCall cw6 = none := by
  refine ⟨by decide, by decide, by decide⟩

/-- C6 (amended): an audio artifact is pending exactly when its download
marker appears in the window and the transcription tool's name appears
nowhere in the rendered window (the check is window-global, not per
file); then the gate forces transcription of the most recent audio
marker; once the tool name appears anywhere — in particular in a
transcription result for the same or any other file — no forced
transcription is returned; among several markers the most recent wins. -/
theorem claim_C6 (window : List Msg) (f : String) (m : Msg) (pre : List Msg) :
    ((scanWindow window).1 = some f →
       containsSub (msgStr window) "transcribe_audio" = false →
       nextForcedCall window = some (.transcribeAudio f))
    ∧ (containsSub (msgStr window) "transcribe_audio" = true →
       ∀ g, nextForcedCall window ≠ some (.transcribeAudio g))
    ∧ (audioMatch m.content = some f → (scanWindow (pre ++ [m])).1 = some f) := by
  refine ⟨fun ha hta => ?_, fun hta g => ?_, fun hm => ?_⟩
  · simp only [nextForcedCall, ha, hta]
    simp
  · simp only [nextForcedCall, hta]
    cases h1 : (scanWindow window).1 <;> cases h2 : (scanWindow window).2 <;>
      simp
  · unfold scanWindow
    rw [List.foldl_append]
    simp [hm]

/-- Closed witness for C6: a lone marker for `x.opus` is forced; in the
counterexample window the tool name is present and nothing is forced; a
later `b.opus` marker overrides an earlier one. -/
theorem claim_C6_witness :
    ((scanWindow w6).1 = some "x.opus"
      ∧ containsSub (msgStr w6) "transcribe_audio" = false
      ∧ nextForcedCall w6 = some (.transcribeAudio "x.opus"))
    ∧ (containsSub (msgStr cw6) "transcribe_audio" = true
      ∧ ∀ g, nextForcedCall cw6 ≠ some (.transcribeAudio g))
    ∧ (audioMatch mB.content = some "b.opus"
      ∧ (scanWindow (w6 ++ [mB])).1 = some "b.opus") :=
  ⟨⟨by decide, by decide,
    (claim_C6 w6 "x.opus" mB []).1 (by decide) (by decide)⟩,
   ⟨by decide, (claim_C6 cw6 "x.opus" mB []).2.1 (by decide)⟩,
   ⟨by decide, (claim_C6 w6 "b.opus" mB w6).2.2 (by decide)⟩⟩

/-- C10: when the current task-identifier has no entry in the start-time
registry, the decision turn never enters the timeout escape, whatever the
wall-clock time and the retry offset hold. -/
theorem claim_C10 (cur_time : ℚ) (offset : Option ℚ) (window : List Msg) :
    agentDecide none cur_time offset window ≠ AgentDecision.timeoutEscape := by
  unfold agentDecide
  have h : timeoutCheck none cur_time offset = false := rfl
  rw [h]
  cases hn : nextForcedCall window <;> simp

/-- The advance dictionary finishes by setting the environment url to the
follow-up and clearing the offset. -/
theorem finishStep_single (st : Store) (nu : String) :
    finishStep st [("url", .pyStr nu)] (.pyStr nu) =
      (.pyDict [("url", .pyStr nu)],
        { st with envUrl := some nu, envOffset := none }) := by
  simp [finishStep, pyKeyEq, dictGetD, dictGet, List.find?]

/-- C2: once the attempt counter for the current task-identifier has
reached the retry ceiling of 4, a further submission whose response is
marked incorrect and carries a follow-up url always produces the advance
decision: the returned dictionary is exactly the follow-up url, with no
retry instruction attached, the environment advances to the follow-up and
the retry offset is reset. -/
theorem claim_C2 (url : String) (payload p1 : List (String × PyVal))
    (secret : Option String) (store : Store) (d : List (String × PyVal))
    (ck : Clock) (nu : String)
    (hres : resolveAnswer payload store.base64Store = some p1)
    (hval : validateUrl url = none)
    (hurl : dictGet d "url" = some (.pyStr nu))
    (hnu : nu ≠ "")
    (hcor : pyTruthy (dictGetD d "correct" .pyNone) = false)
    (hceil : retry_limit ≤ cacheGet store.cache store.envUrl) :
    ∃ s', post_request url payload secret store (.okJson (.pyDict d)) ck =
        some (.pyDict [("url", .pyStr nu)], s')
      ∧ s'.envOffset = none ∧ s'.envUrl = some nu := by
  have hg1 : dictGetD d "url" .pyNone = .pyStr nu := dictGetD_of_get hurl _
  have hg2 : dictGetD d "url" (.pyStr "") = .pyStr nu := dictGetD_of_get hurl _
  have hne : nu.isEmpty = false := isEmpty_false hnu
  have hcond : cacheGet (cacheBump store.cache store.envUrl) store.envUrl ≥
      retry_limit := by
    rw [cacheGet_cacheBump]
    omega
  have htr : pyTruthy (.pyStr nu) = true := by simp [pyTruthy, hne]
  have key : post_request url payload secret store (.okJson (.pyDict d)) ck =
      some (finishStep
        (if (urlTimeGet store.urlTime (.pyStr nu)).isSome then
            { store with cache := cacheBump store.cache store.envUrl }
          else
            { store with
                cache := cacheBump store.cache store.envUrl
                urlTime := store.urlTime ++ [(.pyStr nu, ck.tTouch)] })
        [("url", .pyStr nu)] (.pyStr nu)) := by
    simp only [post_request, hres, hval, handleResp, handleData, retryAdvance,
      hg1, hg2, htr, hcor, pyHashable, apply_ite Store.cache, ite_self]
    rw [if_neg (by simp)]
    rw [if_neg (by simp)]
    rw [if_pos trivial]
    rw [if_pos (Or.inl hcond)]
  rw [finishStep_single] at key
  exact ⟨_, key, rfl, rfl⟩

/-- Closed witness for C2: with 4 attempts already recorded against `u1`,
an incorrect response carrying follow-up `u2` yields the advance
dictionary. -/
theorem claim_C2_witness :
    resolveAnswer [] storeW2.base64Store = some []
    ∧ validateUrl "https://srv.org/q" = none
    ∧ dictGet dW2 "url" = some (.pyStr "u2")
    ∧ pyTruthy (dictGetD dW2 "correct" .pyNone) = false
    ∧ retry_limit ≤ cacheGet storeW2.cache storeW2.envUrl
    ∧ ∃ s', post_request "https://srv.org/q" [] none storeW2
          (.okJson (.pyDict dW2)) ckW =
        some (.pyDict [("url", .pyStr "u2")], s')
      ∧ s'.envOffset = none ∧ s'.envUrl = some "u2" :=
  ⟨rfl, rfl, rfl, rfl, by decide,
   claim_C2 "https://srv.org/q" [] [] none storeW2 dW2 ckW "u2" rfl rfl rfl
     (by decide) rfl (by decide)⟩

/-- C4: when the target URL is rejected — missing scheme or host, or a
placeholder-domain blocklist hit — `post_request` returns the structured
error dictionary with the store untouched (in particular the attempt
counter is not incremented), and the outcome is independent of the
network interaction and the clock: no network call is consumed.  The
preceding answer-indirection step (the spec's validation step 1) is
assumed to resolve. -/
theorem claim_C4 (url : String) (payload p1 : List (String × PyVal))
    (secret : Option String) (store : Store) (resp respB : HttpResp)
    (ck ckB : Clock) (err : PyVal)
    (hres : resolveAnswer payload store.base64Store = some p1)
    (hval : validateUrl url = some err) :
    post_request url payload secret store resp ck = some (err, store)
    ∧ (∃ msg, err = .pyDict [("error", .pyStr msg)])
    ∧ post_request url payload secret store resp ck =
        post_request url payload secret store respB ckB := by
  refine ⟨?_, ?_, ?_⟩
  · simp only [post_request, hres, hval]
  · unfold validateUrl at hval
    split_ifs at hval <;> exact ⟨_, (Option.some.inj hval).symm⟩
  · simp only [post_request, hres, hval]

/-- Closed witness for C4: the placeholder URL `https://example.com/x` is
rejected with the blocklist error, the store is unchanged, and two
different network outcomes and clocks give the same result. -/
theorem claim_C4_witness :
    resolveAnswer [] storeW3.base64Store = some []
    ∧ validateUrl "https://example.com/x" = some errW4
    ∧ (post_request "https://example.com/x" [] none storeW3
          (.okJson (.pyDict dW2)) ckW = some (errW4, storeW3)
      ∧ (∃ msg, errW4 = .pyDict [("error", .pyStr msg)])
      ∧ post_request "https://example.com/x" [] none storeW3
            (.okJson (.pyDict dW2)) ckW =
          post_request "https://example.com/x" [] none storeW3
            (.exn "boom") ⟨0, 0, 0, 0, 0, 0⟩) :=
  ⟨rfl, rfl,
   claim_C4 "https://example.com/x" [] [] none storeW3
     (.okJson (.pyDict dW2)) (.exn "boom") ckW ⟨0, 0, 0, 0, 0, 0⟩ errW4
     rfl rfl⟩

/-- `finishStep` on the advance dictionary never returns the END signal. -/
theorem finishStep_url_ne_endSignal (st : Store) (x : PyVal) (nu : PyVal)
    (v : PyVal) (sB : Store) :
    finishStep st [("url", x)] nu ≠ (endSignal v, sB) := by
  intro h
  unfold finishStep at h
  split at h
  · exact absurd (congrArg Prod.fst h) (ne_endSignal_of_head (by decide) _ _ v)
  · exact absurd (congrArg Prod.fst h) (ne_endSignal_of_head (by decide) _ _ v)

/-- `finishStep` on a dictionary carrying the retry instruction never
returns the END signal. -/
theorem finishStep_message_ne_endSignal (st : Store)
    (data2 : List (String × PyVal)) (nu : PyVal) (v : PyVal) (sB : Store)
    (hmsg : dictGet data2 "message" = some (.pyStr "Retry Again!")) :
    finishStep st data2 nu ≠ (endSignal v, sB) := by
  intro h
  unfold finishStep at h
  split at h
  · have h2 := congrArg Prod.fst h
    simp only [endSignal, PyVal.pyDict.injEq] at h2
    rw [h2] at hmsg
    simp [dictGet, List.find?] at hmsg
  · exact absurd (congrArg Prod.fst h) (ne_endSignal_of_head (by decide) _ _ v)

/-- `finishStep` on a dictionary whose `url` field is truthy never
returns the END signal. -/
theorem finishStep_truthy_ne_endSignal (st : Store)
    (dB : List (String × PyVal)) (nu : PyVal) (v : PyVal) (sB : Store)
    (ht : pyTruthy (dictGetD dB "url" .pyNone) = true) :
    finishStep st dB nu ≠ (endSignal v, sB) := by
  intro h
  unfold finishStep at h
  split at h
  · have h2 := congrArg Prod.fst h
    simp only [endSignal, PyVal.pyDict.injEq] at h2
    rw [h2] at ht
    simp [pyTruthy, dictGetD, dictGet, List.find?] at ht
  · exact absurd (congrArg Prod.fst h) (ne_endSignal_of_head (by decide) _ _ v)

/-- The incorrect-answer decision never returns the END signal: its
advance branch forwards a `url` dictionary and its retry branch a
dictionary carrying the retry instruction. -/
theorem retryAdvance_ne_endSignal (curUrl : Option String) (st1 : Store)
    (data : List (String × PyVal)) (ck : Clock) (nu : PyVal) (delay : ℚ)
    (v : PyVal) (sB : Store) :
    retryAdvance curUrl st1 data ck nu delay ≠ (endSignal v, sB) := by
  unfold retryAdvance
  split
  · exact finishStep_url_ne_endSignal _ _ _ v sB
  · exact finishStep_message_ne_endSignal _ _ _ v sB
      (dictGet_dictSet_self _ "message" _)

/-- C3: a successful POST whose parsed JSON dictionary carries no `url`
field returns the END signal together with the response data (only the
attempt counter changed); and this is the sole termination signal — any
run of `post_request` that returns the END signal did so because the
parsed JSON dictionary of a 2xx response had a falsy `url` field, and the
attached response is that dictionary. -/
theorem claim_C3 (url : String) (payload p1 : List (String × PyVal))
    (secret : Option String) (store : Store) (d : List (String × PyVal))
    (ck : Clock)
    (hres : resolveAnswer payload store.base64Store = some p1)
    (hval : validateUrl url = none) :
    (dictGet d "url" = none →
      post_request url payload secret store (.okJson (.pyDict d)) ck =
        some (endSignal (.pyDict d),
          { store with cache := cacheBump store.cache store.envUrl }))
    ∧ (∀ (urlB : String) (payloadB : List (String × PyVal))
        (secretB : Option String) (storeB : Store) (respB : HttpResp)
        (ckB : Clock) (v : PyVal) (sB : Store),
        post_request urlB payloadB secretB storeB respB ckB =
          some (endSignal v, sB) →
        ∃ dB, respB = .okJson (.pyDict dB)
          ∧ pyTruthy (dictGetD dB "url" .pyNone) = false
          ∧ v = .pyDict dB) := by
  constructor
  · intro hu
    have hg : dictGetD d "url" .pyNone = .pyNone := by simp [dictGetD, hu]
    simp only [post_request, hres, hval, handleResp, handleData, hg, pyTruthy]
    rw [if_pos trivial]
  · intro urlB payloadB secretB storeB respB ckB v sB h
    unfold post_request at h
    cases hr : resolveAnswer payloadB storeB.base64Store with
    | none => rw [hr] at h; cases h
    | some pB =>
      rw [hr] at h
      cases hv : validateUrl urlB with
      | some err =>
        rw [hv] at h
        obtain ⟨msg, rfl⟩ := validateUrl_some hv
        simp only [Option.some.injEq, Prod.mk.injEq] at h
        exact absurd h.1 (ne_endSignal_of_head (by decide) _ _ v)
      | none =>
        rw [hv] at h
        simp only [Option.some.injEq] at h
        cases respB with
        | exn msg =>
          simp only [handleResp, Prod.mk.injEq] at h
          exact absurd h.1 (ne_endSignal_of_head (by decide) _ _ v)
        | okText t =>
          simp only [handleResp, Prod.mk.injEq] at h
          exact absurd h.1 (ne_endSignal_of_head (by decide) _ _ v)
        | httpError st bj tx =>
          simp only [handleResp, Prod.mk.injEq] at h
          exact absurd h.1 (ne_endSignal_of_head (by decide) _ _ v)
        | okJson data =>
          cases data with
          | pyDict dB =>
            simp only [handleResp, handleData] at h
            split at h
            · rename_i htr
              simp only [Prod.mk.injEq, endSignal, PyVal.pyDict.injEq,
                List.cons.injEq, Prod.mk.injEq] at h
              exact ⟨dB, rfl, htr, h.1.2.1.2.symm⟩
            · rename_i htr
              have htr2 : pyTruthy (dictGetD dB "url" .pyNone) = true := by
                revert htr
                cases pyTruthy (dictGetD dB "url" .pyNone) <;> simp
              split at h <;>
                first
                | (split at h <;>
                     first
                     | exact absurd h (retryAdvance_ne_endSignal _ _ _ _ _ _ v sB)
                     | exact absurd h (finishStep_truthy_ne_endSignal _ _ _ v sB htr2))
                | (simp only [Prod.mk.injEq] at h
                   exact absurd h.1 (ne_endSignal_of_head (by decide) _ _ v))
          | pyNone =>
            simp only [handleResp, Prod.mk.injEq] at h
            exact absurd h.1 (ne_endSignal_of_head (by decide) _ _ v)
          | pyBool b =>
            simp only [handleResp, Prod.mk.injEq] at h
            exact absurd h.1 (ne_endSignal_of_head (by decide) _ _ v)
          | pyInt n =>
            simp only [handleResp, Prod.mk.injEq] at h
            exact absurd h.1 (ne_endSignal_of_head (by decide) _ _ v)
          | pyFloat q =>
            simp only [handleResp, Prod.mk.injEq] at h
            exact absurd h.1 (ne_endSignal_of_head (by decide) _ _ v)
          | pyStr sS =>
            simp only [handleResp, Prod.mk.injEq] at h
            exact absurd h.1 (ne_endSignal_of_head (by decide) _ _ v)
          | pyList l =>
            simp only [handleResp, Prod.mk.injEq] at h
            exact absurd h.1 (ne_endSignal_of_head (by decide) _ _ v)

/-- Closed witness for C3: an empty response dictionary — no `url` field —
terminates, and applying the sole-signal direction to that very run
recovers the dictionary. -/
theorem claim_C3_witness :
    dictGet ([] : List (String × PyVal)) "url" = none
    ∧ post_request "https://srv.org/q" [] none storeW3
        (.okJson (.pyDict [])) ckW =
      some (endSignal (.pyDict []),
        { storeW3 with cache := cacheBump storeW3.cache storeW3.envUrl })
    ∧ ∃ dB, HttpResp.okJson (.pyDict ([] : List (String × PyVal))) =
          .okJson (.pyDict dB)
        ∧ pyTruthy (dictGetD dB "url" .pyNone) = false
        ∧ PyVal.pyDict [] = .pyDict dB := by
  have hc := claim_C3 "https://srv.org/q" [] [] none storeW3 [] ckW rfl rfl
  exact ⟨rfl, hc.1 rfl,
    hc.2 "https://srv.org/q" [] none storeW3 _ ckW _ _ (hc.1 rfl)⟩

end QuizAgent
